import Mathlib

/-!
Verification of the offline caching service worker (`sw.js`) of the
AI Interior website.  The worker owns two named cache stores
(`<version>::static`, `<version>::runtime`), precaches a fixed asset list
on install, garbage-collects stale stores on activate, and dispatches each
fetch to a cache-first or network-first strategy.

The embedding below models cache storage as an association list from store
names to stores, and a store as an association list from URL strings to
responses.  The network is a function `String → Option Response`, where
`none` models a fetch that throws (offline / DNS failure) and `some r` a
fetch that resolved with response `r` (possibly with a non-success status).
URLs are opaque strings; a request carries its URL and, separately, the
origin component of that URL (the worker reads both `request.url` and
`new URL(request.url).origin`).
-/

namespace SW

/-- A fetch `Response`: status code, status text, body and headers.
`new Response(body, init)` corresponds to building this structure; headers
default to the empty list. -/
structure Response where
  status : Nat
  statusText : String
  body : String
  headers : List (String × String)
deriving DecidableEq, Repr

/-- `Response.ok` of the fetch API: status in the inclusive range 200–299. -/
def Response.okb (r : Response) : Bool :=
  decide (200 ≤ r.status) && decide (r.status ≤ 299)

/-- A fetch `Request` as read by the worker: its method, full URL string
(`request.url`), the origin component of that URL (`new URL(request.url).origin`,
carried separately because the model treats URLs as opaque strings), and its
mode (`"navigate"` for navigations). -/
structure Request where
  method : String
  url : String
  origin : String
  mode : String
deriving DecidableEq, Repr

/-- A single cache store: an association list from URL strings to the
responses stored under them (first binding wins on lookup). -/
abbrev Store := List (String × Response)

/-- The cache storage (`caches`): the list of named stores, in creation
order. -/
abbrev CacheState := List (String × Store)

/-- Does a store with this name exist? -/
def cachesHas (st : CacheState) (name : String) : Bool :=
  st.any (fun e => e.1 == name)

/-- `caches.open(name)`: returns the existing store, creating an empty one
at the end of the list when absent.  The model returns the updated
storage. -/
def cachesOpen (st : CacheState) (name : String) : CacheState :=
  if cachesHas st name then st else st ++ [(name, [])]

/-- The contents of the named store, when it exists. -/
def storeOf (st : CacheState) (name : String) : Option Store :=
  (st.find? (fun e => e.1 == name)).map (fun e => e.2)

/-- `cache.match(url)` on a single store: the first response stored under
exactly this URL string. -/
def storeMatch (s : Store) (url : String) : Option Response :=
  (s.find? (fun e => e.1 == url)).map (fun e => e.2)

/-- `cache.match(url)` against the named store; `none` when the store is
absent or holds no entry for the URL. -/
def cacheMatch (st : CacheState) (name url : String) : Option Response :=
  (storeOf st name).bind (fun s => storeMatch s url)

/-- `cache.match(request)`: with default options a request whose method is
not GET never matches any entry (Cache API, query-cache matching). -/
def matchRequest (st : CacheState) (name : String) (req : Request) : Option Response :=
  if req.method == "GET" then cacheMatch st name req.url else none

/-- Overwrite-or-append a binding in a store (`cache.put` replaces any
previous entry for the same URL). -/
def storePut (s : Store) (url : String) (r : Response) : Store :=
  if s.any (fun e => e.1 == url) then
    s.map (fun e => if e.1 == url then (url, r) else e)
  else s ++ [(url, r)]

/-- `cache.put(url, response)` on the named store (created when absent). -/
def cachePut (st : CacheState) (name url : String) (r : Response) : CacheState :=
  (cachesOpen st name).map (fun e => if e.1 == name then (e.1, storePut e.2 url r) else e)

/-- `cache.put(request, response)`: the Cache API rejects a put whose
request method is not GET, and the worker never awaits its puts, so a
rejected put leaves the storage unchanged and is otherwise unobserved. -/
def cachePutReq (st : CacheState) (name : String) (req : Request) (r : Response) : CacheState :=
  if req.method == "GET" then cachePut st name req.url r else st

/-- `caches.match(url)`: search every store in order, returning the first
match. -/
def cachesMatchAll (st : CacheState) (url : String) : Option Response :=
  match st with
  | [] => none
  | e :: rest => (storeMatch e.2 url).orElse (fun _ => cachesMatchAll rest url)

/-! ### Constants of `sw.js` -/

def CACHE_VERSION : String := "ai-interior-v1.0.0"

def CACHE_NAME : String := CACHE_VERSION ++ "::static"

def RUNTIME_CACHE : String := CACHE_VERSION ++ "::runtime"

/-- Assets to cache on install. -/
def PRECACHE_ASSETS : List String :=
  ["/",
   "/index.html",
   "/assets/css/main.css",
   "/assets/css/components.css",
   "/assets/js/main.js",
   "/assets/js/theme.js",
   "/assets/js/navigation.js",
   "/assets/js/animations.js",
   "/assets/js/portfolio.js",
   "/assets/js/utils.js",
   "/assets/js/form-handler.js",
   "/components/header.html",
   "/components/hero-section.html",
   "/components/about-section.html",
   "/components/services-section.html",
   "/components/portfolio-section.html",
   "/components/why-choose-section.html",
   "/components/process-section.html",
   "/components/testimonials-section.html",
   "/components/blog-section.html",
   "/components/contact-section.html",
   "/components/footer.html"]

/-- CDN and external resources to cache at runtime. -/
def RUNTIME_CACHE_URLS : List String :=
  ["https://fonts.googleapis.com",
   "https://fonts.gstatic.com",
   "https://cdnjs.cloudflare.com"]

/-! ### Install -/

/-- Outcome of one install attempt: the cache storage afterwards, whether
the promise handed to `event.waitUntil` rejected, and whether
`self.skipWaiting()` was called. -/
structure InstallResult where
  caches : CacheState
  rejected : Bool
  skipWaiting : Bool
deriving DecidableEq, Repr

/-- `cache.addAll(urls)` (Cache API): fetch every URL; the call rejects if
any fetch throws or any response is not ok, and the entries are committed
as one atomic batch only when every fetch succeeded — a failed `addAll`
adds nothing to the store. -/
def addAll (net : String → Option Response) (urls : List String) :
    Option (List (String × Response)) :=
  urls.mapM (fun u => (net u).bind (fun r => if r.okb then some (u, r) else none))

/-- The install event listener: open the static store, `addAll` the
precache list, then `skipWaiting`.  The trailing `.catch` converts any
failure into a resolved promise, so `rejected` is `false` on both
branches; on failure `skipWaiting` is not reached and the store keeps
only what `caches.open` created. -/
def install (net : String → Option Response) (st : CacheState) : InstallResult :=
  let st1 := cachesOpen st CACHE_NAME
  match addAll net PRECACHE_ASSETS with
  | some entries =>
      { caches := entries.foldl (fun acc e => cachePut acc CACHE_NAME e.1 e.2) st1,
        rejected := false, skipWaiting := true }
  | none =>
      { caches := st1, rejected := false, skipWaiting := false }

/-! ### Activate -/

/-- Is this store name one of the current version's two store names? -/
def isCurrent (n : String) : Bool := n == CACHE_NAME || n == RUNTIME_CACHE

/-- The activate event listener: enumerate `caches.keys()` and delete every
store whose name differs from both current names.  Returns the storage
afterwards together with the list of deleted store names. -/
def activateStep (st : CacheState) : CacheState × List String :=
  (st.filter (fun e => isCurrent e.1),
   (st.map (fun e => e.1)).filter (fun n => !isCurrent n))

/-! ### Fetch strategies -/

/-- What handling one fetch event produced: the response the page receives
(`none` when the promise given to `respondWith` rejected, which only the
bare network passthrough can do), the cache storage afterwards, whether the
network was consulted, and the URLs the handler looked up in
(`lookups`) and attempted to write to (`puts`) cache stores. -/
structure FetchResult where
  response : Option Response
  caches : CacheState
  netCalled : Bool
  lookups : List String
  puts : List String
deriving DecidableEq, Repr

/-- The synthetic offline response of `cacheFirst`. -/
def offlineResponse : Response :=
  { status := 503, statusText := "Service Unavailable",
    body := "Offline - Content not available",
    headers := [("Content-Type", "text/plain")] }

/-- The synthetic offline response of `networkFirst`. -/
def offlineResponseNF : Response :=
  { status := 503, statusText := "Service Unavailable",
    body := "Offline", headers := [] }

/-- Cache-first strategy: open the given store and try the cache; on a
miss fetch the network and write back ok responses; if the fetch throws,
fall back to `/offline.html` in the same store, else to the synthetic 503. -/
def cacheFirst (net : String → Option Response) (req : Request)
    (cacheName : String) (st : CacheState) : FetchResult :=
  let st1 := cachesOpen st cacheName
  match matchRequest st1 cacheName req with
  | some cached =>
      { response := some cached, caches := st1, netCalled := false,
        lookups := [req.url], puts := [] }
  | none =>
      match net req.url with
      | some resp =>
          if resp.okb then
            { response := some resp, caches := cachePutReq st1 cacheName req resp,
              netCalled := true, lookups := [req.url], puts := [req.url] }
          else
            { response := some resp, caches := st1, netCalled := true,
              lookups := [req.url], puts := [] }
      | none =>
          match cacheMatch st1 cacheName "/offline.html" with
          | some off =>
              { response := some off, caches := st1, netCalled := true,
                lookups := [req.url, "/offline.html"], puts := [] }
          | none =>
              { response := some offlineResponse, caches := st1, netCalled := true,
                lookups := [req.url, "/offline.html"], puts := [] }

/-- Network-first strategy: open the runtime store, try the network and
write back ok responses; if the fetch throws, fall back to the runtime
store's copy, then (for navigations) to `/offline.html` or `/index.html`
found in any store via `caches.match`, else to the synthetic 503. -/
def networkFirst (net : String → Option Response) (req : Request)
    (st : CacheState) : FetchResult :=
  let st1 := cachesOpen st RUNTIME_CACHE
  match net req.url with
  | some resp =>
      if resp.okb then
        { response := some resp, caches := cachePutReq st1 RUNTIME_CACHE req resp,
          netCalled := true, lookups := [], puts := [req.url] }
      else
        { response := some resp, caches := st1, netCalled := true,
          lookups := [], puts := [] }
  | none =>
      match matchRequest st1 RUNTIME_CACHE req with
      | some cached =>
          { response := some cached, caches := st1, netCalled := true,
            lookups := [req.url], puts := [] }
      | none =>
          if req.mode == "navigate" then
            match (cachesMatchAll st1 "/offline.html").orElse
                (fun _ => cachesMatchAll st1 "/index.html") with
            | some off =>
                { response := some off, caches := st1, netCalled := true,
                  lookups := [req.url, "/offline.html", "/index.html"], puts := [] }
            | none =>
                { response := some offlineResponseNF, caches := st1, netCalled := true,
                  lookups := [req.url, "/offline.html", "/index.html"], puts := [] }
          else
            { response := some offlineResponseNF, caches := st1, netCalled := true,
              lookups := [req.url], puts := [] }

/-! ### Fetch dispatch -/

/-- `url.includes(pat)`: `pat` occurs as a substring of `s`. -/
def stringContains (s pat : String) : Bool :=
  s.toList.tails.any (fun t => pat.toList.isPrefixOf t)

/-- `s.startsWith(p)` of JavaScript strings, modelled over the character
list. -/
def strStartsWith (s p : String) : Bool := p.toList.isPrefixOf s.toList

/-- `shouldCacheExternal`: the request URL string starts with one of the
configured external URL prefixes (`url.href.startsWith(cacheUrl)`). -/
def shouldCacheExternal (req : Request) : Bool :=
  RUNTIME_CACHE_URLS.any (fun cacheUrl => strStartsWith req.url cacheUrl)

/-- The branch the fetch listener takes for a request. -/
inductive Route where
  | externalCacheFirst
  | crossOriginSkip
  | apiNetworkFirst
  | nonGetPassthrough
  | navigateNetworkFirst
  | assetCacheFirst
deriving DecidableEq, Repr

/-- The fetch listener's dispatch, mirroring its conditionals in order:
cross-origin (allow-listed or skipped), then URLs containing `/api/`,
then non-GET methods, then navigations, then the static-asset default. -/
def route (selfOrigin : String) (req : Request) : Route :=
  if req.origin != selfOrigin then
    if shouldCacheExternal req then .externalCacheFirst else .crossOriginSkip
  else if stringContains req.url "/api/" then .apiNetworkFirst
  else if req.method != "GET" then .nonGetPassthrough
  else if req.mode == "navigate" then .navigateNetworkFirst
  else .assetCacheFirst

/-- The whole fetch event listener: `none` when the handler returns without
calling `event.respondWith` (non-allow-listed cross-origin requests);
otherwise the result of the chosen strategy.  The non-GET branch is
`event.respondWith(fetch(request))`: the raw network outcome, touching no
cache store. -/
def handleFetch (selfOrigin : String) (net : String → Option Response)
    (req : Request) (st : CacheState) : Option FetchResult :=
  match route selfOrigin req with
  | .externalCacheFirst => some (cacheFirst net req RUNTIME_CACHE st)
  | .crossOriginSkip => none
  | .apiNetworkFirst => some (networkFirst net req st)
  | .nonGetPassthrough =>
      some { response := net req.url, caches := st, netCalled := true,
             lookups := [], puts := [] }
  | .navigateNetworkFirst => some (networkFirst net req st)
  | .assetCacheFirst => some (cacheFirst net req CACHE_NAME st)

/-- The response component of an optional fetch result. -/
def respOf : Option FetchResult → Option Response
  | some fr => fr.response
  | none => none

/-- The cache-lookup log of an optional fetch result. -/
def lookupsOf : Option FetchResult → List String
  | some fr => fr.lookups
  | none => []

/-- The network-consulted flag of an optional fetch result. -/
def netOf : Option FetchResult → Bool
  | some fr => fr.netCalled
  | none => false

/-! ### Helper lemmas: opening a store does not change what matches -/

theorem storeOf_append_new (st : CacheState) (n m : String)
    (h : st.find? (fun e => e.1 == m) = none) :
    storeOf (st ++ [(n, ([] : Store))]) m = if (n == m) then some [] else none := by
  unfold storeOf
  rw [List.find?_append, h]
  by_cases hnm : (n == m) = true
  · simp [List.find?, hnm]
  · simp [List.find?, hnm]

theorem cacheMatch_cachesOpen (st : CacheState) (n m u : String) :
    cacheMatch (cachesOpen st n) m u = cacheMatch st m u := by
  unfold cachesOpen
  by_cases h : cachesHas st n = true
  · simp [h]
  · simp only [h, Bool.false_eq_true, if_false]
    unfold cacheMatch
    cases hf : st.find? (fun e => e.1 == m) with
    | some e => unfold storeOf; rw [List.find?_append, hf]; rfl
    | none =>
        rw [storeOf_append_new st n m hf]
        by_cases hnm : (n == m) = true
        · simp [hnm, storeOf, hf, storeMatch, List.find?]
        · simp [hnm, storeOf, hf]

theorem matchRequest_cachesOpen (st : CacheState) (n m : String) (req : Request) :
    matchRequest (cachesOpen st n) m req = matchRequest st m req := by
  unfold matchRequest
  rw [cacheMatch_cachesOpen]

theorem cachesMatchAll_append_empty (st : CacheState) (n u : String) :
    cachesMatchAll (st ++ [(n, ([] : Store))]) u = cachesMatchAll st u := by
  induction st with
  | nil => simp [cachesMatchAll, storeMatch, List.find?, Option.orElse]
  | cons e rest ih => simp [cachesMatchAll, ih]

theorem cachesMatchAll_cachesOpen (st : CacheState) (n u : String) :
    cachesMatchAll (cachesOpen st n) u = cachesMatchAll st u := by
  unfold cachesOpen
  by_cases h : cachesHas st n = true
  · simp [h]
  · simp only [h, Bool.false_eq_true, if_false]
    exact cachesMatchAll_append_empty st n u

/-! ### Concrete networks and requests used in closed statements -/

/-- A network where `/assets/css/main.css` (a member of the precache list)
returns 404 and every other URL returns 200. -/
def net404css : String → Option Response :=
  fun u =>
    if u == "/assets/css/main.css" then some ⟨404, "Not Found", "missing", []⟩
    else some ⟨200, "OK", u, []⟩

/-- A network where every URL returns 200 with the URL echoed as body. -/
def netAllOk : String → Option Response := fun u => some ⟨200, "OK", u, []⟩

/-- A network where every fetch throws (fully offline). -/
def netDown : String → Option Response := fun _ => none

/-! ### Claim theorems -/

/-- **C1.** The claim says a precache failure during install makes the
promise given to the install event reject.  It does not: the handler's
trailing `.catch` swallows the `addAll` rejection, so the promise handed to
`event.waitUntil` resolves and the browser records the install as
successful.  Evaluated at the failing network `net404css` (the precached
asset `/assets/css/main.css` 404s): the promise does not reject
(`rejected = false`, diverging from the claim), while the claim's other
conjuncts hold — the static store ends with zero entries (atomic `addAll`)
and skip-waiting is not signalled. -/
theorem install_catch_swallows_failure :
    (install net404css []).rejected = false
    ∧ (install net404css []).skipWaiting = false
    ∧ storeOf (install net404css []).caches CACHE_NAME = some [] := by
  refine ⟨rfl, by decide, by decide⟩

/-- **C3.** The claim says `/offline.html` is a member of the precache
asset list and hence present in the static store after a successful
install.  It is not: the list omits it, and after an install where every
fetch succeeds the static store still has no entry for `/offline.html`,
so the worker's offline fallback lookups can never be served from the
precache. -/
theorem offline_page_not_precached :
    "/offline.html" ∉ PRECACHE_ASSETS
    ∧ cacheMatch (install netAllOk []).caches CACHE_NAME "/offline.html" = none := by
  refine ⟨by decide, by decide⟩

/-- **C8.** After the activate handler runs, every surviving store is named
exactly `CACHE_NAME` or `RUNTIME_CACHE`, and every store whose name is
neither appears in the list of deleted names: no stale-version store
remains. -/
theorem activate_version_isolation (st : CacheState) :
    (∀ n, n ∈ ((activateStep st).1.map (fun e => e.1)) →
        n = CACHE_NAME ∨ n = RUNTIME_CACHE)
    ∧ (∀ e, e ∈ st → isCurrent e.1 = false → e.1 ∈ (activateStep st).2) := by
  constructor
  · intro n hn
    rcases List.mem_map.mp hn with ⟨e, he, rfl⟩
    have hcur : isCurrent e.1 = true := (List.mem_filter.mp he).2
    rcases Bool.or_eq_true_iff.mp hcur with h | h
    · exact Or.inl (by exact_mod_cast eq_of_beq h)
    · exact Or.inr (by exact_mod_cast eq_of_beq h)
  · intro e he hnc
    refine List.mem_filter.mpr ⟨List.mem_map.mpr ⟨e, he, rfl⟩, ?_⟩
    simp [hnc]

/-- Witness for C8 at a concrete storage holding one stale store and the
current static store. -/
theorem activate_version_isolation_witness :
    (CACHE_NAME = CACHE_NAME ∨ CACHE_NAME = RUNTIME_CACHE)
    ∧ "ai-interior-v0.9::static" ∈
        (activateStep [("ai-interior-v0.9::static", []), (CACHE_NAME, [])]).2 :=
  ⟨(activate_version_isolation [("ai-interior-v0.9::static", []), (CACHE_NAME, [])]).1
      CACHE_NAME (by decide),
   (activate_version_isolation [("ai-interior-v0.9::static", []), (CACHE_NAME, [])]).2
      ("ai-interior-v0.9::static", []) (by decide) (by decide)⟩

/-- **C9.** Activation is idempotent: running the activate handler on
storage that just went through activation deletes zero stores and leaves
the storage unchanged. -/
theorem activate_idempotent (st : CacheState) :
    activateStep (activateStep st).1 = ((activateStep st).1, []) := by
  unfold activateStep
  refine Prod.ext ?_ ?_
  · simp only []
    refine List.filter_eq_self.mpr ?_
    intro e he
    exact (List.mem_filter.mp he).2
  · simp only []
    refine List.filter_eq_nil_iff.mpr ?_
    intro n hn
    rcases List.mem_map.mp hn with ⟨e, he, rfl⟩
    have hcur : isCurrent e.1 = true := (List.mem_filter.mp he).2
    simp [hcur]

/-- The same-origin POST request to an API URL used against C2: the fetch
listener tests `url.includes('/api/')` before it tests the method. -/
def apiPostReq : Request :=
  { method := "POST", url := "https://example.com/api/submit",
    origin := "https://example.com", mode := "cors" }

/-- **C2 counterexample.** The claim says every non-GET request goes
straight to the network and is never looked up in any cache store,
explicitly including URLs containing `/api/`.  A same-origin POST to
`/api/submit` is instead dispatched to the network-first strategy (the
`/api/` test precedes the method test), which on network failure looks the
request up in the runtime store: the lookup log is nonempty. -/
theorem nonGet_passthrough_cex :
    apiPostReq.method = "POST"
    ∧ lookupsOf (handleFetch "https://example.com" netDown apiPostReq []) =
        ["https://example.com/api/submit"] := by
  refine ⟨rfl, by decide⟩

/-- **C2 (amended).** Non-GET passthrough holds away from the earlier
dispatch branches: every same-origin non-GET request whose URL does not
contain `/api/` is answered by `respondWith(fetch(request))` — the raw
network outcome, with no cache lookup, no cache write and the cache
storage unchanged.  (A non-GET whose URL contains `/api/` is handled by
network-first instead, and an allow-listed cross-origin non-GET by
cache-first.) -/
theorem nonGet_passthrough (o : String) (net : String → Option Response)
    (req : Request) (st : CacheState)
    (hor : req.origin = o) (hapi : stringContains req.url "/api/" = false)
    (hm : req.method ≠ "GET") :
    handleFetch o net req st =
      some { response := net req.url, caches := st, netCalled := true,
             lookups := [], puts := [] } := by
  have h1 : (req.origin != o) = false := by simp [bne, hor]
  have h3 : (req.method != "GET") = true := by simpa using hm
  unfold handleFetch route
  simp [h1, hapi, h3]

/-- Witness for C2's amended theorem: a same-origin POST to `/contact`
while offline is the raw (failed) network outcome with no cache access. -/
theorem nonGet_passthrough_witness :
    handleFetch "https://example.com" netDown
        { method := "POST", url := "https://example.com/contact",
          origin := "https://example.com", mode := "cors" } [] =
      some { response := none, caches := [], netCalled := true,
             lookups := [], puts := [] } :=
  nonGet_passthrough "https://example.com" netDown
    { method := "POST", url := "https://example.com/contact",
      origin := "https://example.com", mode := "cors" } []
    rfl (by decide) (by decide)

/-- A cross-origin GET whose URL string extends an allow-listed prefix but
whose origin is a different host. -/
def evilFontReq : Request :=
  { method := "GET", url := "https://fonts.googleapis.com.evil.example/f.woff2",
    origin := "https://fonts.googleapis.com.evil.example", mode := "no-cors" }

/-- **C4 counterexample.** The claim says a cross-origin request is
intercepted if and only if its origin is in the configured allow-list.
`evilFontReq`'s origin is none of the allow-listed hosts (and differs from
the page origin), yet the handler intercepts it, because
`shouldCacheExternal` tests `url.href.startsWith` against the configured
prefixes rather than comparing origins. -/
theorem crossOrigin_allowlist_cex :
    evilFontReq.origin ∉ RUNTIME_CACHE_URLS
    ∧ evilFontReq.origin ≠ "https://example.com"
    ∧ (handleFetch "https://example.com" netDown evilFontReq []).isSome = true := by
  refine ⟨by decide, by decide, by decide⟩

/-- **C4 (amended).** A cross-origin request is intercepted if and only if
its full URL string starts with one of the configured external URL
prefixes; an intercepted one is served by the cache-first strategy against
the runtime store, and a non-matching one gets no `respondWith` at all. -/
theorem crossOrigin_prefix_dispatch (o : String) (net : String → Option Response)
    (req : Request) (st : CacheState) (hcross : req.origin ≠ o) :
    ((handleFetch o net req st).isSome ↔ shouldCacheExternal req = true)
    ∧ (shouldCacheExternal req = true →
        handleFetch o net req st = some (cacheFirst net req RUNTIME_CACHE st))
    ∧ (shouldCacheExternal req = false → handleFetch o net req st = none) := by
  have h1 : (req.origin != o) = true := by simpa using hcross
  unfold handleFetch route
  by_cases hext : shouldCacheExternal req = true
  · simp [h1, hext]
  · simp only [Bool.not_eq_true] at hext
    simp [h1, hext]

/-- Witness for C4's amended theorem: a font request to
`fonts.gstatic.com` is intercepted and served cache-first against the
runtime store. -/
theorem crossOrigin_prefix_dispatch_witness :
    (handleFetch "https://example.com" netDown
        { method := "GET", url := "https://fonts.gstatic.com/f.woff2",
          origin := "https://fonts.gstatic.com", mode := "no-cors" } []).isSome = true :=
  ((crossOrigin_prefix_dispatch "https://example.com" netDown
      { method := "GET", url := "https://fonts.gstatic.com/f.woff2",
        origin := "https://fonts.gstatic.com", mode := "no-cors" } []
      (by decide)).1).mpr (by decide)

/-- A concrete offline page response used in witnesses. -/
def offlinePageResp : Response := ⟨200, "OK", "You are offline", []⟩

/-- A concrete cached page response used in witnesses. -/
def pageResp : Response := ⟨200, "OK", "index page", []⟩

/-- **C5.** A same-origin GET request that is not an API call and not a
navigation is dispatched to cache-first against the static store; when the
static store holds an entry for its URL, that cached response is returned
and the network is not consulted. -/
theorem cacheFirst_static_hit (o : String) (net : String → Option Response)
    (req : Request) (st : CacheState) (r : Response)
    (hor : req.origin = o) (hapi : stringContains req.url "/api/" = false)
    (hm : req.method = "GET") (hnav : (req.mode == "navigate") = false)
    (hc : cacheMatch st CACHE_NAME req.url = some r) :
    respOf (handleFetch o net req st) = some r
    ∧ netOf (handleFetch o net req st) = false := by
  have h1 : (req.origin != o) = false := by simp [bne, hor]
  have h3 : (req.method != "GET") = false := by simp [bne, hm]
  have hroute : route o req = Route.assetCacheFirst := by
    unfold route
    simp [h1, hapi, h3, hnav]
  have hmr : matchRequest (cachesOpen st CACHE_NAME) CACHE_NAME req = some r := by
    rw [matchRequest_cachesOpen]
    unfold matchRequest
    simp [hm, hc]
  simp [handleFetch, hroute, cacheFirst, hmr, respOf, netOf]

/-- Witness for C5: a GET for a statically cached stylesheet is served
from the static store with the network mock never invoked. -/
theorem cacheFirst_static_hit_witness :
    respOf (handleFetch "https://example.com" netDown
        { method := "GET", url := "https://example.com/index.html",
          origin := "https://example.com", mode := "no-cors" }
        [(CACHE_NAME, [("https://example.com/index.html", pageResp)])]) = some pageResp
    ∧ netOf (handleFetch "https://example.com" netDown
        { method := "GET", url := "https://example.com/index.html",
          origin := "https://example.com", mode := "no-cors" }
        [(CACHE_NAME, [("https://example.com/index.html", pageResp)])]) = false :=
  cacheFirst_static_hit "https://example.com" netDown
    { method := "GET", url := "https://example.com/index.html",
      origin := "https://example.com", mode := "no-cors" }
    [(CACHE_NAME, [("https://example.com/index.html", pageResp)])] pageResp
    rfl (by decide) rfl (by decide) (by decide)

/-- **C6.** When the network fetch of a navigation request throws, the
network-first strategy always returns a response (the exception never
escapes), and that response is, in order of preference: the runtime
store's copy of the request, else the first `/offline.html` found in any
store, else the first `/index.html` found in any store, else the synthetic
503 `"Offline"` response. -/
theorem networkFirst_navigation_fallback (net : String → Option Response)
    (req : Request) (st : CacheState)
    (hm : req.method = "GET") (hnav : (req.mode == "navigate") = true)
    (hnet : net req.url = none) :
    ((networkFirst net req st).response).isSome = true
    ∧ (∀ c, cacheMatch st RUNTIME_CACHE req.url = some c →
        (networkFirst net req st).response = some c)
    ∧ (cacheMatch st RUNTIME_CACHE req.url = none →
        (∀ o, cachesMatchAll st "/offline.html" = some o →
          (networkFirst net req st).response = some o)
        ∧ (cachesMatchAll st "/offline.html" = none →
            (∀ s, cachesMatchAll st "/index.html" = some s →
              (networkFirst net req st).response = some s)
            ∧ (cachesMatchAll st "/index.html" = none →
                (networkFirst net req st).response = some offlineResponseNF))) := by
  have hmr : matchRequest (cachesOpen st RUNTIME_CACHE) RUNTIME_CACHE req
      = cacheMatch st RUNTIME_CACHE req.url := by
    rw [matchRequest_cachesOpen]
    unfold matchRequest
    simp [hm]
  refine ⟨?_, ?_, ?_⟩
  · cases hc : cacheMatch st RUNTIME_CACHE req.url with
    | some c => simp [networkFirst, hnet, hmr, hc]
    | none =>
        cases ho : cachesMatchAll st "/offline.html" with
        | some o =>
            simp [networkFirst, hnet, hmr, hc, hnav, cachesMatchAll_cachesOpen, ho,
              Option.orElse]
        | none =>
            cases hi : cachesMatchAll st "/index.html" with
            | some s =>
                simp [networkFirst, hnet, hmr, hc, hnav, cachesMatchAll_cachesOpen, ho,
                  hi, Option.orElse]
            | none =>
                simp [networkFirst, hnet, hmr, hc, hnav, cachesMatchAll_cachesOpen, ho,
                  hi, Option.orElse]
  · intro c hc
    simp [networkFirst, hnet, hmr, hc]
  · intro hc
    constructor
    · intro o ho
      simp [networkFirst, hnet, hmr, hc, hnav, cachesMatchAll_cachesOpen, ho,
        Option.orElse]
    · intro ho
      constructor
      · intro s hi
        simp [networkFirst, hnet, hmr, hc, hnav, cachesMatchAll_cachesOpen, ho, hi,
          Option.orElse]
      · intro hi
        simp [networkFirst, hnet, hmr, hc, hnav, cachesMatchAll_cachesOpen, ho, hi,
          Option.orElse]

/-- Witness for C6: an offline navigation against empty cache storage
yields the synthetic 503 `"Offline"` response. -/
theorem networkFirst_navigation_fallback_witness :
    (networkFirst netDown
        { method := "GET", url := "https://example.com/page",
          origin := "https://example.com", mode := "navigate" } []).response
      = some offlineResponseNF :=
  (((networkFirst_navigation_fallback netDown
      { method := "GET", url := "https://example.com/page",
        origin := "https://example.com", mode := "navigate" } []
      rfl rfl rfl).2.2 rfl).2 rfl).2 rfl

/-- **C7.** When a request is not in the store cache-first was invoked
with and the network fetch throws, the strategy still returns a response
(never an uncaught error): the store's `/offline.html` entry when present,
otherwise the synthetic 503 plain-text offline response. -/
theorem cacheFirst_offline_fallback (net : String → Option Response)
    (req : Request) (name : String) (st : CacheState)
    (hmiss : matchRequest st name req = none) (hnet : net req.url = none) :
    ((cacheFirst net req name st).response).isSome = true
    ∧ (∀ o, cacheMatch st name "/offline.html" = some o →
        (cacheFirst net req name st).response = some o)
    ∧ (cacheMatch st name "/offline.html" = none →
        (cacheFirst net req name st).response = some offlineResponse) := by
  have hmr : matchRequest (cachesOpen st name) name req = none := by
    rw [matchRequest_cachesOpen]
    exact hmiss
  have hoffeq := cacheMatch_cachesOpen st name name "/offline.html"
  refine ⟨?_, ?_, ?_⟩
  · cases hoff : cacheMatch st name "/offline.html" with
    | some o => simp [cacheFirst, hmr, hnet, hoffeq, hoff]
    | none => simp [cacheFirst, hmr, hnet, hoffeq, hoff]
  · intro o hoff
    simp [cacheFirst, hmr, hnet, hoffeq, hoff]
  · intro hoff
    simp [cacheFirst, hmr, hnet, hoffeq, hoff]

/-- Witness for C7: an offline request for an uncached stylesheet, with
`/offline.html` present in the static store, is answered with the offline
page. -/
theorem cacheFirst_offline_fallback_witness :
    (cacheFirst netDown
        { method := "GET", url := "https://example.com/missing.css",
          origin := "https://example.com", mode := "no-cors" }
        CACHE_NAME [(CACHE_NAME, [("/offline.html", offlinePageResp)])]).response
      = some offlinePageResp :=
  (cacheFirst_offline_fallback netDown
      { method := "GET", url := "https://example.com/missing.css",
        origin := "https://example.com", mode := "no-cors" }
      CACHE_NAME [(CACHE_NAME, [("/offline.html", offlinePageResp)])]
      (by decide) rfl).2.1 offlinePageResp (by decide)

/-- **C10.** Cache-first consults only the store it was invoked with: an
allow-listed cross-origin request is served against the runtime store, so
when the network throws and the runtime store holds neither the request
nor `/offline.html`, the result is the synthetic 503 plain-text response —
even though the static store holds `/offline.html`. -/
theorem external_cacheFirst_runtime_only (o : String) (net : String → Option Response)
    (req : Request) (st : CacheState) (page : Response)
    (hcross : req.origin ≠ o) (hext : shouldCacheExternal req = true)
    (hmiss : matchRequest st RUNTIME_CACHE req = none)
    (hnet : net req.url = none)
    (hoffr : cacheMatch st RUNTIME_CACHE "/offline.html" = none)
    (_hstatic : cacheMatch st CACHE_NAME "/offline.html" = some page) :
    respOf (handleFetch o net req st) = some offlineResponse := by
  have h1 : (req.origin != o) = true := by simpa using hcross
  have hroute : route o req = Route.externalCacheFirst := by
    unfold route
    simp [h1, hext]
  have hmr : matchRequest (cachesOpen st RUNTIME_CACHE) RUNTIME_CACHE req = none := by
    rw [matchRequest_cachesOpen]
    exact hmiss
  have hoff : cacheMatch (cachesOpen st RUNTIME_CACHE) RUNTIME_CACHE "/offline.html"
      = none := by
    rw [cacheMatch_cachesOpen]
    exact hoffr
  simp [handleFetch, hroute, cacheFirst, hmr, hnet, hoff, respOf]

/-- Witness for C10: an offline font request served cache-first against
the runtime store yields the synthetic 503 although the static store holds
`/offline.html`. -/
theorem external_cacheFirst_runtime_only_witness :
    respOf (handleFetch "https://example.com" netDown
        { method := "GET", url := "https://fonts.gstatic.com/f.woff2",
          origin := "https://fonts.gstatic.com", mode := "no-cors" }
        [(CACHE_NAME, [("/offline.html", offlinePageResp)])]) = some offlineResponse :=
  external_cacheFirst_runtime_only "https://example.com" netDown
    { method := "GET", url := "https://fonts.gstatic.com/f.woff2",
      origin := "https://fonts.gstatic.com", mode := "no-cors" }
    [(CACHE_NAME, [("/offline.html", offlinePageResp)])] offlinePageResp
    (by decide) (by decide) (by decide) rfl (by decide) (by decide)

end SW
